import Mathlib

/-!
Verification development for the disaster-intel-tool pipeline
(`src/utils.py`, `src/data_sources.py`, `src/app.py`).

Conventions of the embedding:
* Numeric feed values are modelled as rationals (`ℚ`) in the adapters and as
  reals (`ℝ`) where the distance mathematics is at stake; a missing / NaN /
  unparsable field is `Option.none`.
* Timestamps are integers (`ℤ`): milliseconds since epoch for the seismic
  feed (which is what the upstream `time` property carries), seconds for the
  other two adapters.  `hours_back` is a natural number, as supplied by the
  driver's bounded slider.
* A pandas `DataFrame` becomes a list of rows; `dropna` on the coordinate
  columns followed by `to_numeric(errors="coerce")` and a second `dropna`
  collapses to requiring both `Option` coordinates to be `some`.
-/

namespace DisasterIntel

/-! ### utils.py: haversine_km

`math.atan2`, written out with its usual quadrant cases.  Only the
`0 < x` branch and the symmetry of applying it to equal arguments matter
for the proofs below. -/

noncomputable def atan2 (y x : ℝ) : ℝ :=
  if 0 < x then Real.arctan (y / x)
  else if x < 0 then
    (if 0 ≤ y then Real.arctan (y / x) + Real.pi
     else Real.arctan (y / x) - Real.pi)
  else (if 0 < y then Real.pi / 2 else if y < 0 then -(Real.pi / 2) else 0)

/-- `math.radians`: degrees to radians. -/
noncomputable def radians (x : ℝ) : ℝ := x * Real.pi / 180

/-- The intermediate `a` of `utils.haversine_km`:
`sin(dphi/2)**2 + cos(phi1)*cos(phi2)*sin(dlambda/2)**2`. -/
noncomputable def hav_a (lat1 lon1 lat2 lon2 : ℝ) : ℝ :=
  Real.sin (radians (lat2 - lat1) / 2) ^ 2 +
    Real.cos (radians lat1) * Real.cos (radians lat2) *
      Real.sin (radians (lon2 - lon1) / 2) ^ 2

/-- `utils.haversine_km` on present coordinates (the `None in (...)` guard of
the source returns infinity and is only reachable on absent coordinates,
which the Distance Filter has already dropped): Earth radius 6371 km,
`2 * R * atan2(sqrt(a), sqrt(1 - a))`. -/
noncomputable def haversine_km (lat1 lon1 lat2 lon2 : ℝ) : ℝ :=
  2 * 6371 * atan2 (Real.sqrt (hav_a lat1 lon1 lat2 lon2))
    (Real.sqrt (1 - hav_a lat1 lon1 lat2 lon2))

/-! ### app.py: filter_by_aoi (the Distance Filter) -/

/-- An event annotated with its computed `distance_km` column. -/
structure FilteredEvent (ε α : Type) where
  event : ε
  distance_km : α

/-- `app.filter_by_aoi(df, lat_col, lon_col, label)`, parametrised by the
column accessors (`latOf`, `lonOf`) and by the distance function that the
app composes in (`utils.haversine_km`).  `center` is `none` when geocoding
failed (`aoi_lat is None or aoi_lon is None`); the `df is None or df.empty`
and `f.empty` early returns coincide with the general path on an empty
list.  Cleaning (`dropna` + `to_numeric` + `dropna`) keeps exactly the rows
with both coordinates present; then `distance_km` is computed per row, rows
with `distance_km <= radius_km` are kept and the result is sorted ascending
by `distance_km`. -/
def filter_by_aoi {ε α : Type} [LinearOrder α] (latOf lonOf : ε → Option α)
    (dist : α → α → α → α → α) (events : List ε) (center : Option (α × α))
    (radius_km : α) : List (FilteredEvent ε α) :=
  match center with
  | none => []
  | some c =>
    let cleaned := events.filterMap fun e =>
      match latOf e, lonOf e with
      | some la, some lo => some (e, la, lo)
      | _, _ => none
    let withDist := cleaned.map fun p =>
      FilteredEvent.mk p.1 (dist c.1 c.2 p.2.1 p.2.2)
    (withDist.filter fun fe => decide (fe.distance_km ≤ radius_km)).insertionSort
      fun a b => a.distance_km ≤ b.distance_km

/-- The row `filter_by_aoi` would produce for one input event, or `none` if
the event is dropped (absent coordinate, or distance beyond the radius). -/
def filter_by_aoi_rowSpec {ε α : Type} [LinearOrder α]
    (latOf lonOf : ε → Option α) (dist : α → α → α → α → α)
    (clat clon radius_km : α) (e : ε) : Option (FilteredEvent ε α) :=
  match latOf e, lonOf e with
  | some la, some lo =>
    if dist clat clon la lo ≤ radius_km then
      some (FilteredEvent.mk e (dist clat clon la lo))
    else none
  | _, _ => none

/-! ### data_sources.py: fetch_usgs_quakes (Seismic Adapter)

The adapter picks the hourly or daily feed URL from `hours_back` and maps
every fetched feature to a row; it applies no cutoff filter of its own.
Feature times are epoch milliseconds. -/

/-- One GeoJSON feature: `properties.time/mag/place/url` and
`geometry.coordinates` read positionally (`coordinates[0..2]`); a missing
geometry yields `[None, None, None]`, so each slot is an `Option`. -/
structure UsgsFeature where
  time : Option ℤ
  mag : Option ℚ
  place : Option String
  c0 : Option ℚ
  c1 : Option ℚ
  c2 : Option ℚ
  url : Option String
deriving DecidableEq

/-- One row of the seismic DataFrame. -/
structure UsgsRow where
  time_utc : ℤ
  magnitude : Option ℚ
  place : Option String
  latitude : Option ℚ
  longitude : Option ℚ
  depth_km : Option ℚ
  url : Option String
deriving DecidableEq

/-- The row built from one feature: `time_utc` from `props.time or 0`
(missing time degrades to epoch zero), `latitude = coords[1]`,
`longitude = coords[0]`, `depth_km = coords[2]`. -/
def usgs_row (f : UsgsFeature) : UsgsRow :=
  { time_utc := f.time.getD 0
    magnitude := f.mag
    place := f.place
    latitude := f.c1
    longitude := f.c0
    depth_km := f.c2
    url := f.url }

/-- `data_sources.fetch_usgs_quakes(hours_back)` on a fetched feature list:
every feature becomes a row (no time filtering happens here — `hours_back`
only chooses between the hourly and daily feed URL), sorted newest-first. -/
def fetch_usgs_quakes (hours_back : ℕ) (features : List UsgsFeature) :
    List UsgsRow :=
  let _ := hours_back
  (features.map usgs_row).insertionSort fun a b => b.time_utc ≤ a.time_utc

/-! ### data_sources.py: fetch_gdacs_events (Multi-Hazard Adapter) -/

/-- One RSS `item`.  `pub` is the outcome of
`datetime.fromisoformat(pubdate.replace("Z","+00:00"))` on the `dc:date` /
`pubDate` text, in epoch seconds; `none` means the text was missing or
unparsable (the `except` branch).  `geoLat` / `geoLon` are the outcomes of
`float(x) if x else None` on the namespaced geo tags (`geoLon` covering the
`long` / `lon` naming variants); `none` means the tag was missing or
empty. -/
structure GdacsItem where
  title : String
  link : String
  pub : Option ℤ
  geoLat : Option ℚ
  geoLon : Option ℚ
deriving DecidableEq

/-- One row of the multi-hazard DataFrame. -/
structure GdacsRow where
  time_utc : ℤ
  title : String
  url : String
  latitude : Option ℚ
  longitude : Option ℚ
deriving DecidableEq

/-- `cutoff = _now_utc() - timedelta(hours=hours_back)`, in epoch seconds. -/
def gdacs_cutoff (now : ℤ) (hours_back : ℕ) : ℤ := now - 3600 * hours_back

/-- The timestamp used for an item: the parsed publish time, or `now` when
parsing failed. -/
def gdacs_time (now : ℤ) (it : GdacsItem) : ℤ := it.pub.getD now

/-- The cutoff test: the loop does `if t < cutoff: continue`, so an item is
kept exactly when `cutoff ≤ t`. -/
def gdacs_keep (now : ℤ) (hours_back : ℕ) (it : GdacsItem) : Bool :=
  decide (gdacs_cutoff now hours_back ≤ gdacs_time now it)

/-- The row built from one retained item. -/
def gdacs_row (now : ℤ) (it : GdacsItem) : GdacsRow :=
  { time_utc := gdacs_time now it
    title := it.title
    url := it.link
    latitude := it.geoLat
    longitude := it.geoLon }

/-- `data_sources.fetch_gdacs_events(hours_back)` on a fetched item list:
items surviving the cutoff become rows, sorted newest-first. -/
def fetch_gdacs_events (now : ℤ) (hours_back : ℕ) (items : List GdacsItem) :
    List GdacsRow :=
  (((items.filter (gdacs_keep now hours_back)).map (gdacs_row now)).insertionSort
    fun a b => b.time_utc ≤ a.time_utc)

/-! ### data_sources.py: fetch_nasa_firms (Fire-Detection Adapter) -/

/-- One CSV row.  `acq` is the outcome of parsing
`acq_date + " " + acq_time.zfill(4)` with format `%Y-%m-%d %H%M` for this
row, in epoch seconds; `none` means this row's combination is
unparsable. -/
structure FirmsRow where
  acq : Option ℤ
  latitude : Option ℚ
  longitude : Option ℚ
  bright_ti4 : Option ℚ
  confidence : Option ℚ
deriving DecidableEq

/-- One row of the canonical fire table after renaming/selection. -/
structure FirmsOutRow where
  time_utc : Option ℤ
  latitude : Option ℚ
  longitude : Option ℚ
  brightness : Option ℚ
  confidence : Option ℚ
deriving DecidableEq

/-- A DataFrame with its column names, so the column contract is part of
the model rather than baked into a fixed record type. -/
structure FirmsResult where
  cols : List String
  rows : List FirmsOutRow
deriving DecidableEq

/-- The `time_utc` column: `pd.to_datetime` is applied to the whole column
with `errors="raise"` inside one `try`, so either every row parses and each
row gets its own instant, or the single `except` assigns `NaT` to every row
of the batch. -/
def firms_with_times (rows : List FirmsRow) : List (FirmsRow × Option ℤ) :=
  if rows.all fun r => r.acq.isSome then rows.map fun r => (r, r.acq)
  else rows.map fun r => (r, none)

/-- `cutoff = datetime.now(timezone.utc) - timedelta(hours=hours_back)`. -/
def firms_cutoff (now : ℤ) (hours_back : ℕ) : ℤ := now - 3600 * hours_back

/-- The cutoff comparison `time_utc >= cutoff`; comparing `NaT` is false. -/
def firms_time_ok (now : ℤ) (hours_back : ℕ) : Option ℤ → Bool
  | some t => decide (firms_cutoff now hours_back ≤ t)
  | none => false

/-- Rename/selection into the five canonical columns. -/
def firms_out_row (p : FirmsRow × Option ℤ) : FirmsOutRow :=
  { time_utc := p.2
    latitude := p.1.latitude
    longitude := p.1.longitude
    brightness := p.1.bright_ti4
    confidence := p.1.confidence }

/-- The processing applied to a successfully parsed, non-empty CSV: build
the `time_utc` column, drop rows failing the cutoff, rename/select the
canonical columns, sort newest-first. -/
def firms_process (now : ℤ) (hours_back : ℕ) (rows : List FirmsRow) :
    FirmsResult :=
  { cols := ["time_utc", "latitude", "longitude", "brightness", "confidence"]
    rows := (((firms_with_times rows).filter fun p =>
        firms_time_ok now hours_back p.2).map firms_out_row).insertionSort
      fun a b => b.time_utc.getD 0 ≤ a.time_utc.getD 0 }

/-- The `pd.DataFrame(columns=[...])` returned when every endpoint failed
or the chosen parse has no rows. -/
def firms_empty : FirmsResult :=
  { cols := ["time_utc", "latitude", "longitude", "brightness", "confidence"]
    rows := [] }

/-- The `try primary / for u in fallbacks: try ... break` dance: the first
endpoint whose read succeeds, in order; later endpoints are never
attempted. -/
def firstSuccess {τ : Type} : List (Option τ) → Option τ
  | [] => none
  | none :: rest => firstSuccess rest
  | some t :: _ => some t

/-- `data_sources.fetch_nasa_firms(hours_back)`: `outcomes` lists, in
order, what `try_read` yields at the primary endpoint and then at each
fallback (`none` = the request or CSV parse raised).  If no endpoint
succeeds or the first successful parse is empty, the explicit empty frame
is returned; otherwise the first successful parse is processed. -/
def fetch_nasa_firms (now : ℤ) (hours_back : ℕ)
    (outcomes : List (Option (List FirmsRow))) : FirmsResult :=
  match firstSuccess outcomes with
  | none => firms_empty
  | some t => if t.isEmpty then firms_empty else firms_process now hours_back t

/-! ### app.py: the Quick Snapshot -/

/-- The `summary` dict of app.py: generation time, requested window, AOI
descriptor and the per-source total / in-AOI counts. -/
structure Snapshot where
  generated_at_utc : ℤ
  hours_back : ℕ
  aoi_query : String
  aoi_center : Option (ℚ × ℚ)
  radius_km : ℚ
  usgs_total : ℕ
  gdacs_total : ℕ
  fires_total : ℕ
  usgs_in_aoi : ℕ
  gdacs_in_aoi : ℕ
  fires_in_aoi : ℕ

/-- Lines 157–169 of app.py: counts are plain lengths of the raw and
filtered tables. -/
def summary (genAt : ℤ) (hours_back : ℕ) (query : String)
    (center : Option (ℚ × ℚ)) (radius_km : ℚ)
    (quakes : List UsgsRow) (gdacs : List GdacsRow) (fires : List FirmsOutRow)
    (fQuakes : List (FilteredEvent UsgsRow ℚ))
    (fGdacs : List (FilteredEvent GdacsRow ℚ))
    (fFires : List (FilteredEvent FirmsOutRow ℚ)) : Snapshot :=
  { generated_at_utc := genAt
    hours_back := hours_back
    aoi_query := query
    aoi_center := center
    radius_km := radius_km
    usgs_total := quakes.length
    gdacs_total := gdacs.length
    fires_total := fires.length
    usgs_in_aoi := fQuakes.length
    gdacs_in_aoi := fGdacs.length
    fires_in_aoi := fFires.length }

/-- The AOI-filter-and-snapshot stage of app.py: the three
`filter_by_aoi` calls (lines 96–100) followed by `summary`.  `center` is
the geocoding outcome (`none` when geocoding failed or returned no
candidates); `dist` is the distance function the app composes in. -/
def run_aoi_stage (dist : ℚ → ℚ → ℚ → ℚ → ℚ) (genAt : ℤ) (hours_back : ℕ)
    (query : String) (center : Option (ℚ × ℚ)) (radius_km : ℚ)
    (quakes : List UsgsRow) (gdacs : List GdacsRow)
    (fires : List FirmsOutRow) :
    Snapshot × List (FilteredEvent UsgsRow ℚ) × List (FilteredEvent GdacsRow ℚ) ×
      List (FilteredEvent FirmsOutRow ℚ) :=
  let fQuakes := filter_by_aoi UsgsRow.latitude UsgsRow.longitude dist quakes
    center radius_km
  let fGdacs := filter_by_aoi GdacsRow.latitude GdacsRow.longitude dist gdacs
    center radius_km
  let fFires := filter_by_aoi FirmsOutRow.latitude FirmsOutRow.longitude dist
    fires center radius_km
  (summary genAt hours_back query center radius_km quakes gdacs fires
    fQuakes fGdacs fFires, fQuakes, fGdacs, fFires)

theorem filter_by_aoi_filter_eq {ε α : Type} [LinearOrder α]
    (latOf lonOf : ε → Option α) (dist : α → α → α → α → α)
    (clat clon radius_km : α) (events : List ε) :
    (((events.filterMap fun e =>
        match latOf e, lonOf e with
        | some la, some lo => some (e, la, lo)
        | _, _ => none).map fun p =>
          (FilteredEvent.mk p.1 (dist clat clon p.2.1 p.2.2) : FilteredEvent ε α)).filter
        fun fe => decide (fe.distance_km ≤ radius_km)) =
      events.filterMap
        (filter_by_aoi_rowSpec latOf lonOf dist clat clon radius_km) := by
  induction events with
  | nil => rfl
  | cons e t ih =>
    rw [List.filterMap_cons, List.filterMap_cons]
    cases hla : latOf e with
    | none => simpa [filter_by_aoi_rowSpec, hla] using ih
    | some la =>
      cases hlo : lonOf e with
      | none => simpa [filter_by_aoi_rowSpec, hla, hlo] using ih
      | some lo =>
        by_cases hd : dist clat clon la lo ≤ radius_km
        · simp [filter_by_aoi_rowSpec, hla, hlo, hd, ih]
        · simp [filter_by_aoi_rowSpec, hla, hlo, hd, ih]

theorem filter_by_aoi_perm_sorted {ε α : Type} [LinearOrder α]
    (latOf lonOf : ε → Option α) (dist : α → α → α → α → α)
    (events : List ε) (clat clon radius_km : α) :
    List.Perm (filter_by_aoi latOf lonOf dist events (some (clat, clon)) radius_km)
        (events.filterMap
          (filter_by_aoi_rowSpec latOf lonOf dist clat clon radius_km)) ∧
      List.Sorted (fun a b => a.distance_km ≤ b.distance_km)
        (filter_by_aoi latOf lonOf dist events (some (clat, clon)) radius_km) := by
  haveI ht : IsTotal (FilteredEvent ε α)
      (fun a b => a.distance_km ≤ b.distance_km) := ⟨fun a b => le_total _ _⟩
  haveI htr : IsTrans (FilteredEvent ε α)
      (fun a b => a.distance_km ≤ b.distance_km) :=
    ⟨fun _ _ _ hab hbc => le_trans hab hbc⟩
  constructor
  · exact (List.perm_insertionSort _ _).trans
      (by rw [filter_by_aoi_filter_eq])
  · exact List.sorted_insertionSort _ _

/-- C1: for every list of events, center point and radius, the Distance
Filter returns exactly the input events that have both coordinates present
and whose haversine distance from the center is at most `radius_km`
(boundary included; an event with an absent coordinate never appears), each
annotated with its `distance_km`, and the result is sorted non-decreasing
in `distance_km`. -/
theorem filter_by_aoi_exact_and_sorted (ε : Type) (latOf lonOf : ε → Option ℝ)
    (events : List ε) (clat clon radius_km : ℝ) :
    List.Perm
        (filter_by_aoi latOf lonOf haversine_km events (some (clat, clon)) radius_km)
        (events.filterMap
          (filter_by_aoi_rowSpec latOf lonOf haversine_km clat clon radius_km)) ∧
      List.Sorted (fun a b => a.distance_km ≤ b.distance_km)
        (filter_by_aoi latOf lonOf haversine_km events (some (clat, clon)) radius_km) :=
  filter_by_aoi_perm_sorted latOf lonOf haversine_km events clat clon radius_km

/-- C9: the haversine distance is symmetric in its two coordinate pairs and
vanishes on identical points. -/
theorem haversine_km_symm_and_zero :
    (∀ lat1 lon1 lat2 lon2 : ℝ,
        haversine_km lat1 lon1 lat2 lon2 = haversine_km lat2 lon2 lat1 lon1) ∧
      (∀ lat lon : ℝ, haversine_km lat lon lat lon = 0) := by
  have ha_symm : ∀ lat1 lon1 lat2 lon2 : ℝ,
      hav_a lat1 lon1 lat2 lon2 = hav_a lat2 lon2 lat1 lon1 := by
    intro lat1 lon1 lat2 lon2
    unfold hav_a
    have h1 : radians (lat1 - lat2) / 2 = -(radians (lat2 - lat1) / 2) := by
      unfold radians; ring
    have h2 : radians (lon1 - lon2) / 2 = -(radians (lon2 - lon1) / 2) := by
      unfold radians; ring
    rw [h1, h2, Real.sin_neg, Real.sin_neg]
    ring
  constructor
  · intro lat1 lon1 lat2 lon2
    unfold haversine_km
    rw [ha_symm]
  · intro lat lon
    have ha0 : hav_a lat lon lat lon = 0 := by
      unfold hav_a
      have h0 : radians (lat - lat) / 2 = 0 := by unfold radians; ring
      have h0' : radians (lon - lon) / 2 = 0 := by unfold radians; ring
      rw [h0, h0', Real.sin_zero]
      ring
    unfold haversine_km
    rw [ha0]
    norm_num [atan2, Real.arctan_zero]

/-- C2: the Multi-Hazard Adapter retains a fetched item exactly when its
publish timestamp parses to a time at or after `now − hours_back`, or the
timestamp is unparsable, in which case `now` is substituted and the item
survives the cutoff; the returned rows are exactly the retained items'
rows.  The last two conjuncts instantiate the boundary: an item exactly at
the cutoff is kept, one a second earlier is dropped. -/
theorem gdacs_cutoff_retention (now : ℤ) (hours_back : ℕ)
    (items : List GdacsItem) :
    List.Perm (fetch_gdacs_events now hours_back items)
        ((items.filter (gdacs_keep now hours_back)).map (gdacs_row now)) ∧
      (∀ it : GdacsItem,
        gdacs_keep now hours_back it = true ↔
          ((∃ t, it.pub = some t ∧ now - 3600 * hours_back ≤ t) ∨
            it.pub = none)) ∧
      gdacs_keep now hours_back
        { title := "", link := "", pub := some (now - 3600 * hours_back),
          geoLat := none, geoLon := none } = true ∧
      gdacs_keep now hours_back
        { title := "", link := "", pub := some (now - 3600 * hours_back - 1),
          geoLat := none, geoLon := none } = false := by
  refine ⟨List.perm_insertionSort _ _, ?_, ?_, ?_⟩
  · intro it
    cases hp : it.pub with
    | none =>
      simp only [gdacs_keep, decide_eq_true_eq]
      constructor
      · intro _; exact Or.inr True.intro
      · intro _
        simp only [gdacs_cutoff, gdacs_time, hp, Option.getD_none]
        omega
    | some t =>
      simp only [gdacs_keep, gdacs_cutoff, gdacs_time, hp, Option.getD_some,
        decide_eq_true_eq]
      constructor
      · intro h; exact Or.inl ⟨t, rfl, h⟩
      · rintro (⟨t', ht', h⟩ | h)
        · injection ht' with h2; omega
        · simp at h
  · simp [gdacs_keep, gdacs_cutoff, gdacs_time]
  · simp [gdacs_keep, gdacs_cutoff, gdacs_time]

/-- C8: a seismic feature's 3-element position array `[x, y, z]` is read as
(longitude, latitude, depth): the produced row has `longitude = coords[0]`,
`latitude = coords[1]`, `depth_km = coords[2]`, never swapped; in
particular `[99.0, 18.0, 10.5]` yields longitude 99.0, latitude 18.0,
depth 10.5. -/
theorem usgs_axis_order :
    (∀ (hours_back : ℕ) (f : UsgsFeature),
        fetch_usgs_quakes hours_back [f] = [usgs_row f]) ∧
      (∀ f : UsgsFeature, (usgs_row f).longitude = f.c0 ∧
        (usgs_row f).latitude = f.c1 ∧ (usgs_row f).depth_km = f.c2) ∧
      ((usgs_row { time := some 0, mag := none, place := none, c0 := some 99, c1 := some 18, c2 := some 10.5, url := none }).longitude = some 99 ∧
        (usgs_row { time := some 0, mag := none, place := none, c0 := some 99, c1 := some 18, c2 := some 10.5, url := none }).latitude = some 18 ∧
        (usgs_row { time := some 0, mag := none, place := none, c0 := some 99, c1 := some 18, c2 := some 10.5, url := none }).depth_km = some 10.5) :=
  ⟨fun _ _ => rfl, fun _ => ⟨rfl, rfl, rfl⟩, rfl, rfl, rfl⟩

/-- C10: whatever the endpoint outcomes and rows, the Fire-Detection
Adapter's returned table carries exactly the five canonical columns
`time_utc, latitude, longitude, brightness, confidence`, in that order —
on the all-endpoints-failed / no-rows path as well as on the processing
path. -/
theorem firms_canonical_columns (now : ℤ) (hours_back : ℕ)
    (outcomes : List (Option (List FirmsRow))) :
    (fetch_nasa_firms now hours_back outcomes).cols =
      ["time_utc", "latitude", "longitude", "brightness", "confidence"] := by
  unfold fetch_nasa_firms
  cases firstSuccess outcomes with
  | none => rfl
  | some t =>
    by_cases h : t.isEmpty <;> simp [h, firms_empty, firms_process]

/-- C7: when geocoding yields no candidates the AOI center is absent, every
Distance Filter call returns the empty list, and the Snapshot's three
filtered counts are all zero (the totals still reflecting the raw feeds);
everything is a total function, so no exception escapes the stage. -/
theorem aoi_unresolved_stage (dist : ℚ → ℚ → ℚ → ℚ → ℚ) (genAt : ℤ)
    (hours_back : ℕ) (query : String) (radius_km : ℚ) (quakes : List UsgsRow)
    (gdacs : List GdacsRow) (fires : List FirmsOutRow) :
    (run_aoi_stage dist genAt hours_back query none radius_km quakes gdacs
        fires).2.1 = [] ∧
      (run_aoi_stage dist genAt hours_back query none radius_km quakes gdacs
        fires).2.2.1 = [] ∧
      (run_aoi_stage dist genAt hours_back query none radius_km quakes gdacs
        fires).2.2.2 = [] ∧
      (run_aoi_stage dist genAt hours_back query none radius_km quakes gdacs
        fires).1.usgs_in_aoi = 0 ∧
      (run_aoi_stage dist genAt hours_back query none radius_km quakes gdacs
        fires).1.gdacs_in_aoi = 0 ∧
      (run_aoi_stage dist genAt hours_back query none radius_km quakes gdacs
        fires).1.fires_in_aoi = 0 :=
  ⟨rfl, rfl, rfl, rfl, rfl, rfl⟩

theorem firstSuccess_all_none {τ : Type} (os : List (Option τ))
    (h : ∀ o ∈ os, o = none) : firstSuccess os = none := by
  induction os with
  | nil => rfl
  | cons o rest ih =>
    have ho := h o (by simp)
    subst ho
    exact ih fun o' ho' => h o' (by simp [ho'])

theorem firstSuccess_skips_failures {τ : Type} (pre : List (Option τ)) (t : τ)
    (post : List (Option τ)) (h : ∀ o ∈ pre, o = none) :
    firstSuccess (pre ++ some t :: post) = some t := by
  induction pre with
  | nil => rfl
  | cons o rest ih =>
    have ho := h o (by simp)
    subst ho
    exact ih fun o' ho' => h o' (by simp [ho'])

theorem fetch_nasa_firms_of_none (now : ℤ) (hours_back : ℕ)
    (os : List (Option (List FirmsRow))) (h : firstSuccess os = none) :
    fetch_nasa_firms now hours_back os = firms_empty := by
  unfold fetch_nasa_firms
  rw [h]

theorem fetch_nasa_firms_of_some (now : ℤ) (hours_back : ℕ)
    (os : List (Option (List FirmsRow))) (t : List FirmsRow)
    (h : firstSuccess os = some t) :
    fetch_nasa_firms now hours_back os =
      (if t.isEmpty then firms_empty else firms_process now hours_back t) := by
  unfold fetch_nasa_firms
  rw [h]

/-- C3: the Fire-Detection Adapter attempts the primary endpoint and then
the fixed alternates in order: with any run of failing attempts followed by
a successful read of `t`, the result is computed from `t` alone — the
endpoints after the first success contribute nothing — namely `t`'s
processed data when `t` has rows and the explicit empty table when it does
not; and when every attempt fails the explicit empty table is returned
instead of an exception. -/
theorem firms_fallback_chain :
    (∀ (now : ℤ) (hours_back : ℕ) (pre : List (Option (List FirmsRow)))
        (t : List FirmsRow) (post : List (Option (List FirmsRow))),
        (∀ o ∈ pre, o = none) →
          fetch_nasa_firms now hours_back (pre ++ some t :: post) =
            (if t.isEmpty then firms_empty else firms_process now hours_back t)) ∧
      (∀ (now : ℤ) (hours_back : ℕ) (outcomes : List (Option (List FirmsRow))),
        (∀ o ∈ outcomes, o = none) →
          fetch_nasa_firms now hours_back outcomes = firms_empty) := by
  constructor
  · intro now hb pre t post h
    unfold fetch_nasa_firms
    rw [firstSuccess_skips_failures pre t post h]
  · intro now hb os h
    unfold fetch_nasa_firms
    rw [firstSuccess_all_none os h]

/-- C3 witness: the primary fails, the first alternate parses one row, and
the later (would-be empty) alternate is ignored; separately, three failing
attempts produce the explicit empty table. -/
theorem firms_fallback_chain_witness :
    fetch_nasa_firms 0 24 [none, some [{ acq := some 0, latitude := some 1, longitude := some 2, bright_ti4 := some 300, confidence := some 90 }], some []] =
        firms_process 0 24 [{ acq := some 0, latitude := some 1, longitude := some 2, bright_ti4 := some 300, confidence := some 90 }] ∧
      fetch_nasa_firms 0 24 [none, none, none] = firms_empty :=
  ⟨by simpa using firms_fallback_chain.1 0 24 [none] [{ acq := some 0, latitude := some 1, longitude := some 2, bright_ti4 := some 300, confidence := some 90 }] [some []] (by simp),
    firms_fallback_chain.2 0 24 [none, none, none] (by simp)⟩

/-- C4 counterexample: the Seismic Adapter applies no cutoff of its own
(`hours_back` only picks the feed URL), so with `hours_back = 6` a fetched
feature timestamped at epoch 0 ms is returned even though it is far older
than `now − hours_back` for any plausible fetch moment, e.g.
now = 10^12 ms (Sep 2001). -/
theorem usgs_event_outside_window :
    ((fetch_usgs_quakes 6 [{ time := some 0, mag := none, place := none, c0 := none, c1 := none, c2 := none, url := none }]).map
        UsgsRow.time_utc) = [0] ∧
      (0 : ℤ) < 1000000000000 - 6 * 3600 * 1000 :=
  ⟨rfl, by norm_num⟩

/-- C4 (amended): the look-back window is enforced at fetch time by the
Multi-Hazard Adapter (every returned row's time is at or after the cutoff)
and by the Fire-Detection Adapter (every returned row has a parsed
timestamp at or after the cutoff); the Seismic Adapter, however, returns
every fetched feature unfiltered — it only selects a coarser feed from
`hours_back` — and so may return events older than the window. -/
theorem window_enforced_at_fetch :
    (∀ (now : ℤ) (hours_back : ℕ) (items : List GdacsItem),
        ∀ r ∈ fetch_gdacs_events now hours_back items,
          gdacs_cutoff now hours_back ≤ r.time_utc) ∧
      (∀ (now : ℤ) (hours_back : ℕ) (outcomes : List (Option (List FirmsRow))),
        ∀ r ∈ (fetch_nasa_firms now hours_back outcomes).rows,
          ∃ t, r.time_utc = some t ∧ firms_cutoff now hours_back ≤ t) ∧
      (∀ (hours_back : ℕ) (features : List UsgsFeature),
        List.Perm (fetch_usgs_quakes hours_back features)
          (features.map usgs_row)) := by
  refine ⟨?_, ?_, ?_⟩
  · intro now hb items r hr
    unfold fetch_gdacs_events at hr
    rw [List.mem_insertionSort] at hr
    obtain ⟨it, hit, rfl⟩ := List.mem_map.mp hr
    have hk := (List.mem_filter.mp hit).2
    simp only [gdacs_keep, decide_eq_true_eq] at hk
    simpa [gdacs_row] using hk
  · intro now hb os r hr
    rcases h : firstSuccess os with _ | t
    · rw [fetch_nasa_firms_of_none now hb os h] at hr
      simp [firms_empty] at hr
    · rw [fetch_nasa_firms_of_some now hb os t h] at hr
      by_cases he : t.isEmpty
      · rw [if_pos he] at hr
        simp [firms_empty] at hr
      · rw [if_neg he] at hr
        unfold firms_process at hr
        rw [List.mem_insertionSort] at hr
        obtain ⟨p, hp, rfl⟩ := List.mem_map.mp hr
        have hok := (List.mem_filter.mp hp).2
        cases hacq : p.2 with
        | none => rw [hacq] at hok; simp [firms_time_ok] at hok
        | some u =>
          rw [hacq] at hok
          simp only [firms_time_ok, decide_eq_true_eq] at hok
          exact ⟨u, by simp [firms_out_row, hacq], hok⟩
  · intro hb features
    exact List.perm_insertionSort _ _

/-- C4 witness: a Multi-Hazard item exactly at the cutoff of a zero-hour
window is returned with its time at or after the cutoff, and a fire row
with parsed time `now` survives with a timestamp meeting the cutoff. -/
theorem window_enforced_at_fetch_witness :
    gdacs_cutoff 50 0 ≤ (gdacs_row 50 { title := "", link := "", pub := some 50, geoLat := none, geoLon := none }).time_utc ∧
      (∃ t, (firms_out_row ({ acq := some 7, latitude := none, longitude := none, bright_ti4 := none, confidence := none }, some 7)).time_utc = some t ∧
        firms_cutoff 7 0 ≤ t) :=
  ⟨window_enforced_at_fetch.1 50 0
      [{ title := "", link := "", pub := some 50, geoLat := none, geoLon := none }]
      (gdacs_row 50 { title := "", link := "", pub := some 50, geoLat := none, geoLon := none })
      (by decide),
    window_enforced_at_fetch.2.1 7 0
      [some [{ acq := some 7, latitude := none, longitude := none, bright_ti4 := none, confidence := none }]]
      (firms_out_row ({ acq := some 7, latitude := none, longitude := none, bright_ti4 := none, confidence := none }, some 7))
      (by decide)⟩

/-- C5 counterexample: a Multi-Hazard item carrying a `geo:lat` tag but no
longitude tag produces an event with latitude present and longitude
absent — a partially-present coordinate pair, which the claim rules out. -/
theorem gdacs_partial_coordinates :
    ((fetch_gdacs_events 1000 24 [{ title := "", link := "", pub := some 1000, geoLat := some 1, geoLon := none }]).map
        fun r => (r.latitude, r.longitude)) = [(some 1, none)] := by
  decide

/-- C5 (amended): each adapter passes the two coordinates through
independently — a produced event's latitude is exactly the source latitude
datum and its longitude exactly the source longitude datum — so an event
may carry exactly one coordinate; a missing coordinate degrades to absent
for that coordinate only, and such a record does not abort the batch (the
Multi-Hazard output keeps one row per item surviving the cutoff, whatever
the coordinates). -/
theorem coords_independent_not_coupled :
    (∀ f : UsgsFeature, (usgs_row f).latitude = f.c1 ∧
        (usgs_row f).longitude = f.c0) ∧
      (∀ (now : ℤ) (it : GdacsItem), (gdacs_row now it).latitude = it.geoLat ∧
        (gdacs_row now it).longitude = it.geoLon) ∧
      (∀ p : FirmsRow × Option ℤ, (firms_out_row p).latitude = p.1.latitude ∧
        (firms_out_row p).longitude = p.1.longitude) ∧
      (∀ (now : ℤ) (hours_back : ℕ) (items : List GdacsItem),
        (fetch_gdacs_events now hours_back items).length =
          (items.filter (gdacs_keep now hours_back)).length) := by
  refine ⟨fun _ => ⟨rfl, rfl⟩, fun _ _ => ⟨rfl, rfl⟩, fun _ => ⟨rfl, rfl⟩, ?_⟩
  intro now hb items
  unfold fetch_gdacs_events
  exact ((List.perm_insertionSort _ _).length_eq).trans (List.length_map _ _)

/-- C6: evaluation of the code at the failing input.  A batch holding one
well-formed row (parsed time 1000 s, inside the 24 h window ending at
now = 1000 s) and one malformed row: the single whole-column `except`
assigns the null timestamp to BOTH rows, and the cutoff filter then drops
everything — the well-formed row does not keep its parsed timestamp and
the returned table is empty, where the claim promises the well-formed row
survives untouched. -/
theorem firms_malformed_row_degrades_batch :
    ((firms_with_times [{ acq := some 1000, latitude := some 1, longitude := some 2, bright_ti4 := some 300, confidence := some 90 }, { acq := none, latitude := some 3, longitude := some 4, bright_ti4 := some 301, confidence := some 50 }]).map
        Prod.snd) = [none, none] ∧
      (fetch_nasa_firms 1000 24 [some [{ acq := some 1000, latitude := some 1, longitude := some 2, bright_ti4 := some 300, confidence := some 90 }, { acq := none, latitude := some 3, longitude := some 4, bright_ti4 := some 301, confidence := some 50 }]]).rows = [] ∧
      firms_cutoff 1000 24 ≤ 1000 := by
  refine ⟨rfl, rfl, by decide⟩

end DisasterIntel
